import Mathlib

/-!
# Verification of the MachinaWorks consultation pipeline

A shallow embedding of the consultation request/response pipeline of the
MachinaWorks repository: the consultation gateway (`app/api/consult`,
appended to `DashboardContent.tsx` in the source tree), the submission
transport and business-impact renderer (`components/ConsultationForm.tsx`),
and the auxiliary routes (signup `app/api/auth/signup/route.ts`, login
`src/unnamed/part_004`, notify `src/unnamed/part_003`).

Route handlers receive their request body as parsed JSON; fields obtained by
destructuring are modelled as `JsVal` (JavaScript values with truthiness and
template-literal string coercion). A body that fails to parse as JSON is
modelled as `none` at the `Option` level, which in the source throws inside
`await request.json()` and lands in the outer `catch`. The outcome of each
external call (the reasoning backend, the Supabase identity service) is an
explicit parameter of the handler, and each handler result records how many
external calls were issued on that path.
-/

namespace MachinaWorks

/-- A JavaScript value as it comes out of `request.json()` destructuring.
`undef` models an absent field; `obj` models a JSON object (its fields
flattened to strings, which is all the routes ever do with one). -/
inductive JsVal where
  | undef : JsVal
  | nullv : JsVal
  | boolean : Bool → JsVal
  | number : Int → JsVal
  | str : String → JsVal
  | obj : List (String × String) → JsVal
deriving DecidableEq, Repr

/-- JavaScript truthiness of a `JsVal`: `undefined`, `null`, `false`, `0` and
the empty string are falsy; every object is truthy. -/
def JsVal.truthy : JsVal → Bool
  | .undef => false
  | .nullv => false
  | .boolean b => b
  | .number n => n != 0
  | .str s => s != ""
  | .obj _ => true

/-- Whether a `JsVal` is a string (and thus has a `toUpperCase` method). -/
def JsVal.isString : JsVal → Bool
  | .str _ => true
  | _ => false

/-- Template-literal coercion of a `JsVal` to a string, as performed by
backtick interpolation in the source: an absent field prints as the word
undefined, an object as [object Object]. -/
def JsVal.interp : JsVal → String
  | .undef => "undefined"
  | .nullv => "null"
  | .boolean b => if b then "true" else "false"
  | .number n => toString n
  | .str s => s
  | .obj _ => "[object Object]"

/-- The four fields destructured from the consult request body:
`const { problem, industry, companySize, email } = body`. -/
structure ConsultationRequest where
  problem : JsVal
  industry : JsVal
  companySize : JsVal
  email : JsVal
deriving DecidableEq, Repr

/-- The loosely-typed `businessImpact` object: each of the eleven named slots
may be absent (`none`), since the source never enforces their presence. -/
structure BusinessImpact where
  cost_savings : Option String
  revenue_potential : Option String
  time_savings : Option String
  roi_estimate : Option String
  risk_reduction : Option String
  competitive_advantage : Option String
  implementation_timeline : Option String
  resource_requirements : Option String
  key_metrics : Option (List String)
  success_factors : Option (List String)
  potential_challenges : Option (List String)
deriving DecidableEq, Repr

/-- The consultation response shape consumed by the form component. -/
structure ConsultationResponse where
  recommendations : String
  businessImpact : BusinessImpact
deriving DecidableEq, Repr

namespace ConsultRoute

/-- The `recommendations` template of the fallback `mockResponse`: only
`industry` is interpolated. -/
def mockRecommendations (industry : JsVal) : String :=
  "Based on your problem in the " ++ industry.interp ++ " industry, I recommend implementing an AI-powered solution with the following components:\n\n1. **Natural Language Processing (NLP)** for automated text analysis\n2. **Machine Learning Models** for pattern recognition and prediction\n3. **Retrieval-Augmented Generation (RAG)** for context-aware responses\n4. **Automated Classification** for efficient routing\n\nKey Technologies:\n- Large Language Models (LLMs) for understanding and generation\n- Vector databases for semantic search\n- Real-time processing pipeline\n- Integration with existing systems\n\nThis solution will address your specific challenges while providing scalability and measurable business impact."

/-- The `cost_savings` template of the fallback: interpolates `companySize`
and `industry`. -/
def mockCostSavings (industry companySize : JsVal) : String :=
  "Expected cost reduction of 20-30% through automation. For a " ++ companySize.interp ++ " company in " ++ industry.interp ++ ", this typically translates to $15-25K monthly savings by reducing manual processing time and operational overhead."

/-- The fixed `revenue_potential` text of the fallback. -/
def mockRevenuePotential : String :=
  "Revenue growth potential of 5-10% through improved efficiency and customer satisfaction. Enhanced capabilities can lead to faster service delivery and better customer retention, potentially generating an additional $10-20K monthly."

/-- The fixed `roi_estimate` text of the fallback. -/
def mockRoiEstimate : String :=
  "Investment: $100-150K for implementation. Expected ROI: 150-200% annually. Break-even point: 6-9 months. First year savings: $180-300K."

/-- The fixed `implementation_timeline` text of the fallback. -/
def mockTimeline : String :=
  "Total timeline: 4-6 months\n- Planning & requirements: 2-4 weeks\n- Development & integration: 8-12 weeks  \n- Testing & QA: 4-6 weeks\n- Deployment & training: 2-4 weeks"

/-- The fixed `key_metrics` list of the fallback. -/
def mockKeyMetrics : List String :=
  ["Cost per transaction reduction",
   "Processing time improvement",
   "Customer satisfaction score (CSAT)",
   "First response time (FRT)",
   "Resolution rate",
   "ROI percentage",
   "User adoption rate"]

/-- The `mockResponse` object literal built when the backend call fails.
Exactly the slots written in the source are present; the other six
(`time_savings`, `risk_reduction`, `competitive_advantage`,
`resource_requirements`, `success_factors`, `potential_challenges`)
are absent from the object literal. -/
def mockResponse (industry companySize : JsVal) : ConsultationResponse where
  recommendations := mockRecommendations industry
  businessImpact :=
    { cost_savings := some (mockCostSavings industry companySize)
      revenue_potential := some mockRevenuePotential
      time_savings := none
      roi_estimate := some mockRoiEstimate
      risk_reduction := none
      competitive_advantage := none
      implementation_timeline := some mockTimeline
      resource_requirements := none
      key_metrics := some mockKeyMetrics
      success_factors := none
      potential_challenges := none }

/-- Outcome of the single `fetch` to the reasoning backend. The first three
constructors all throw inside the inner `try` (connection failure, non-OK
status via the explicit `throw`, or a body that fails `response.json()`),
landing in the `catch (backendError)` branch. -/
inductive BackendOutcome where
  | netError : BackendOutcome
  | badStatus : String → BackendOutcome
  | invalidJson : BackendOutcome
  | success : ConsultationResponse → BackendOutcome
deriving DecidableEq, Repr

/-- Whether the delegate call failed (every constructor except `success`). -/
def BackendOutcome.failing : BackendOutcome → Bool
  | .success _ => false
  | _ => true

/-- Body of the gateway HTTP response: either a consultation payload or an
error envelope. -/
inductive ConsultBody where
  | payload : ConsultationResponse → ConsultBody
  | err : String → ConsultBody
deriving DecidableEq, Repr

/-- Result of one gateway invocation: the HTTP status, the JSON body, and the
number of calls issued to the external reasoning backend on that path. -/
structure GatewayResult where
  status : Nat
  body : ConsultBody
  backendCalls : Nat
deriving DecidableEq, Repr

/-- The consult route `POST` handler. `body` is `none` when
`request.json()` throws (malformed body); otherwise the handler always
attempts the backend fetch once, returns the delegate payload on success
with status 200, and otherwise falls through to `mockResponse`, also with
status 200. Nothing in the handler inspects `problem`. -/
def POST (body : Option ConsultationRequest) (backend : BackendOutcome) : GatewayResult :=
  match body with
  | none =>
      { status := 500
        body := .err "Failed to process consultation request"
        backendCalls := 0 }
  | some req =>
      match backend with
      | .success data =>
          { status := 200, body := .payload data, backendCalls := 1 }
      | _ =>
          { status := 200
            body := .payload (mockResponse req.industry req.companySize)
            backendCalls := 1 }

end ConsultRoute

namespace Form

/-- One rendered display block of the Business Impact section: either a
prose block (a heading with a text body) or a bulleted block (a heading with
list items, in array order). -/
inductive Block where
  | prose : String → String → Block
  | bullets : String → List String → Block
deriving DecidableEq, Repr

/-- Rendering of a string-valued slot: JSX renders `undefined` as nothing,
so an absent slot becomes an empty text body. -/
def renderProse (title : String) (slot : Option String) : Block :=
  .prose title (slot.getD "")

/-- Rendering of a list-valued slot: the source calls `.map` on the slot
with no guard, so an absent slot throws a `TypeError` instead of rendering. -/
def renderBullets (title : String) (slot : Option (List String)) : Except String Block :=
  match slot with
  | none => .error ("TypeError: Cannot read properties of undefined (reading map) in " ++ title)
  | some items => .ok (.bullets title items)

/-- The Business Impact section of `ConsultationForm`: the eleven slots in
their fixed JSX order. JSX evaluates the children in order and the first
thrown `TypeError` aborts the whole render, which the `Except` sequencing
reproduces. -/
def renderBusinessImpact (bi : BusinessImpact) : Except String (List Block) := do
  let b9 ← renderBullets "Key Success Metrics" bi.key_metrics
  let b10 ← renderBullets "Success Factors" bi.success_factors
  let b11 ← renderBullets "Potential Challenges" bi.potential_challenges
  pure [renderProse "Cost Savings" bi.cost_savings,
        renderProse "Revenue Potential" bi.revenue_potential,
        renderProse "Time Savings" bi.time_savings,
        renderProse "ROI Estimate" bi.roi_estimate,
        renderProse "Risk Reduction" bi.risk_reduction,
        renderProse "Competitive Advantage" bi.competitive_advantage,
        renderProse "Implementation Timeline" bi.implementation_timeline,
        renderProse "Resource Requirements" bi.resource_requirements,
        b9, b10, b11]

/-- The component state touched by `handleSubmit`: the busy flag, the last
successful result, and the error banner text. -/
structure UIState where
  loading : Bool
  result : Option ConsultationResponse
  error : String
deriving DecidableEq, Repr

/-- The generic failure banner set in the `catch` branch. -/
def submitErrorMessage : String := "Failed to process consultation. Please try again."

/-- Outcome of the single `fetch` to `/api/consult` as seen by the form:
a network error, a response with `ok` false (which triggers the explicit
`throw`), or a parsed 2xx payload. -/
inductive FetchOutcome where
  | netError : FetchOutcome
  | notOk : FetchOutcome
  | success : ConsultationResponse → FetchOutcome
deriving DecidableEq, Repr

/-- `handleSubmit`: sets `loading`, clears `error` and `result`, then either
stores the full payload (`setResult(data)`) or sets the generic error
message in the `catch`; the `finally` clears `loading`. -/
def handleSubmit (s : UIState) (outcome : FetchOutcome) : UIState :=
  let started : UIState := { s with loading := true, error := "", result := none }
  let settled : UIState :=
    match outcome with
    | .success data => { started with result := some data }
    | .netError => { started with error := submitErrorMessage }
    | .notOk => { started with error := submitErrorMessage }
  { settled with loading := false }

end Form

/-- Response body envelope of the auxiliary routes: a success record or an
error record. The `user`/`session` objects returned by the identity service
are carried as opaque strings. -/
inductive AuxBody where
  | signupSuccess : String → String → AuxBody
  | loginSuccess : String → String → AuxBody
  | notifySuccess : String → AuxBody
  | err : String → AuxBody
deriving DecidableEq, Repr

/-- Result of one auxiliary route invocation: HTTP status, JSON body, and
the number of calls issued to the external identity service on that path. -/
structure AuxResult where
  status : Nat
  body : AuxBody
  externalCalls : Nat
deriving DecidableEq, Repr

namespace SignupRoute

/-- The three fields destructured from the signup request body. -/
structure SignupRequest where
  email : JsVal
  password : JsVal
  fullName : JsVal
deriving DecidableEq, Repr

/-- Outcome of the single `supabase.auth.signUp` call. -/
inductive SignUpOutcome where
  | err : String → SignUpOutcome
  | ok : String → SignUpOutcome
deriving DecidableEq, Repr

/-- The signup route `POST` handler: 400 without any external call when a
field is falsy, otherwise exactly one `signUp` call, mapping the service
error to 400 (with the `error.message || "Signup failed"` fallback) and
success to 201. -/
def POST (body : Option SignupRequest) (supabase : SignUpOutcome) : AuxResult :=
  match body with
  | none => { status := 500, body := .err "Internal server error", externalCalls := 0 }
  | some req =>
      if req.email.truthy && req.password.truthy && req.fullName.truthy then
        match supabase with
        | .err msg =>
            { status := 400
              body := .err (if msg = "" then "Signup failed" else msg)
              externalCalls := 1 }
        | .ok user =>
            { status := 201
              body := .signupSuccess user "Signup successful!"
              externalCalls := 1 }
      else
        { status := 400, body := .err "Missing required fields", externalCalls := 0 }

end SignupRoute

namespace LoginRoute

/-- The two fields destructured from the login request body. -/
structure LoginRequest where
  email : JsVal
  password : JsVal
deriving DecidableEq, Repr

/-- Outcome of the single `supabase.auth.signInWithPassword` call: an error,
a reply without a user object, or a user plus session. -/
inductive SignInOutcome where
  | err : String → SignInOutcome
  | noUser : SignInOutcome
  | ok : String → String → SignInOutcome
deriving DecidableEq, Repr

/-- The login route `POST` handler: 400 without any external call when a
field is falsy, otherwise exactly one `signInWithPassword` call, mapping
errors and missing user data to 401 and success to 200. -/
def POST (body : Option LoginRequest) (supabase : SignInOutcome) : AuxResult :=
  match body with
  | none => { status := 500, body := .err "Internal server error", externalCalls := 0 }
  | some req =>
      if req.email.truthy && req.password.truthy then
        match supabase with
        | .err msg =>
            { status := 401
              body := .err (if msg = "" then "Invalid email or password" else msg)
              externalCalls := 1 }
        | .noUser =>
            { status := 401, body := .err "Login failed - no user data", externalCalls := 1 }
        | .ok user session =>
            { status := 200, body := .loginSuccess user session, externalCalls := 1 }
      else
        { status := 400, body := .err "Email and password are required", externalCalls := 0 }

end LoginRoute

namespace NotifyRoute

/-- The two fields destructured from the notify request body. -/
structure NotifyRequest where
  formData : JsVal
  type : JsVal
deriving DecidableEq, Repr

/-- The notify route `POST` handler. After the truthiness check the handler
logs with a template literal calling `type.toUpperCase()`: when `type` is a
truthy non-string that call throws a `TypeError`, which the `catch` maps to
500. No external call is performed on any path (the handler only logs). -/
def POST (body : Option NotifyRequest) : AuxResult :=
  match body with
  | none => { status := 500, body := .err "Failed to process submission", externalCalls := 0 }
  | some req =>
      if req.formData.truthy && req.type.truthy then
        match req.type with
        | .str _ =>
            { status := 200, body := .notifySuccess "Submission received", externalCalls := 0 }
        | _ =>
            { status := 500, body := .err "Failed to process submission", externalCalls := 0 }
      else
        { status := 400, body := .err "Missing required fields", externalCalls := 0 }

end NotifyRoute

/-- Whether the first list of characters occurs at the start of the second. -/
def listStartsWith : List Char → List Char → Bool
  | [], _ => true
  | _ :: _, [] => false
  | a :: as, b :: bs => a == b && listStartsWith as bs

/-- Whether `sub` occurs as a contiguous run inside the second list. -/
def listContainsRun (sub : List Char) : List Char → Bool
  | [] => sub.isEmpty
  | c :: cs => listStartsWith sub (c :: cs) || listContainsRun sub cs

/-- Whether string `s` mentions `sub` as a contiguous substring. -/
def mentions (s sub : String) : Bool := listContainsRun sub.data s.data

/-- The end-to-end scenario input of the spec. -/
def endToEndRequest : ConsultationRequest where
  problem := .str "reduce support cost"
  industry := .str "SaaS"
  companySize := .str "SMB"
  email := .str "a@b.com"

/-- The end-to-end input with the `problem` field missing. -/
def emptyProblemRequest : ConsultationRequest where
  problem := .undef
  industry := .str "SaaS"
  companySize := .str "SMB"
  email := .str "a@b.com"

set_option maxRecDepth 40000

/-- Claim C1: on the failing input (a valid request with the backend
unreachable) the gateway answers 200 with the `mockResponse` fallback, but
that payload carries only five of the eleven `businessImpact` slots: the
`time_savings`, `risk_reduction`, `competitive_advantage`,
`resource_requirements`, `success_factors` and `potential_challenges` slots
are all absent, contradicting the claim that every conforming response
carries all eleven. -/
theorem c1_fallback_omits_six_slots :
    (ConsultRoute.POST (some endToEndRequest) .netError).status = 200 ∧
    (ConsultRoute.POST (some endToEndRequest) .netError).body =
      .payload (ConsultRoute.mockResponse (.str "SaaS") (.str "SMB")) ∧
    (ConsultRoute.mockResponse (.str "SaaS") (.str "SMB")).businessImpact.time_savings = none ∧
    (ConsultRoute.mockResponse (.str "SaaS") (.str "SMB")).businessImpact.risk_reduction = none ∧
    (ConsultRoute.mockResponse (.str "SaaS") (.str "SMB")).businessImpact.competitive_advantage = none ∧
    (ConsultRoute.mockResponse (.str "SaaS") (.str "SMB")).businessImpact.resource_requirements = none ∧
    (ConsultRoute.mockResponse (.str "SaaS") (.str "SMB")).businessImpact.success_factors = none ∧
    (ConsultRoute.mockResponse (.str "SaaS") (.str "SMB")).businessImpact.potential_challenges = none :=
  ⟨rfl, rfl, rfl, rfl, rfl, rfl, rfl, rfl⟩

/-- Claim C2 counterexample: a request whose `problem` field is missing is
still forwarded to the backend (one external call) and answered with status
200; in particular no 4xx-class status is returned. -/
theorem c2_counterexample :
    (ConsultRoute.POST (some emptyProblemRequest) .netError).backendCalls = 1 ∧
    (ConsultRoute.POST (some emptyProblemRequest) .netError).status = 200 ∧
    ¬ (400 ≤ (ConsultRoute.POST (some emptyProblemRequest) .netError).status ∧
       (ConsultRoute.POST (some emptyProblemRequest) .netError).status < 500) := by
  refine ⟨rfl, rfl, ?_⟩
  decide

/-- Claim C2 (amended): the gateway performs no validation of `problem` at
all — replacing `problem` by any value (missing included) leaves the result
unchanged, the external call is always attempted once, and the status is
always 200 for any body that parses. -/
theorem c2_no_problem_validation
    (req : ConsultationRequest) (p : JsVal) (backend : ConsultRoute.BackendOutcome) :
    ConsultRoute.POST (some { req with problem := p }) backend =
      ConsultRoute.POST (some req) backend ∧
    (ConsultRoute.POST (some req) backend).backendCalls = 1 ∧
    (ConsultRoute.POST (some req) backend).status = 200 := by
  cases backend <;> exact ⟨rfl, rfl, rfl⟩

/-- Claim C3 counterexample: the renderer fails with a thrown `TypeError`
on the gateway's own fallback payload, because its absent `success_factors`
slot is dereferenced with an unguarded `.map`; it does not render that block
as nothing. -/
theorem c3_counterexample :
    Form.renderBusinessImpact
        (ConsultRoute.mockResponse (.str "SaaS") (.str "SMB")).businessImpact =
      .error "TypeError: Cannot read properties of undefined (reading map) in Success Factors" :=
  rfl

/-- Claim C3 (amended): whenever the three list-valued slots are present the
renderer succeeds, producing the eleven blocks in their fixed order, with
each absent string-valued slot rendered as an empty prose block and each
list slot (empty lists included) rendered with its items in array order. -/
theorem c3_renderer_total_when_lists_present
    (cs rp ts roi rr ca it rq : Option String) (km sf pc : List String) :
    Form.renderBusinessImpact
        { cost_savings := cs, revenue_potential := rp, time_savings := ts,
          roi_estimate := roi, risk_reduction := rr, competitive_advantage := ca,
          implementation_timeline := it, resource_requirements := rq,
          key_metrics := some km, success_factors := some sf,
          potential_challenges := some pc } =
      .ok [.prose "Cost Savings" (cs.getD ""),
           .prose "Revenue Potential" (rp.getD ""),
           .prose "Time Savings" (ts.getD ""),
           .prose "ROI Estimate" (roi.getD ""),
           .prose "Risk Reduction" (rr.getD ""),
           .prose "Competitive Advantage" (ca.getD ""),
           .prose "Implementation Timeline" (it.getD ""),
           .prose "Resource Requirements" (rq.getD ""),
           .bullets "Key Success Metrics" km,
           .bullets "Success Factors" sf,
           .bullets "Potential Challenges" pc] :=
  rfl

/-- Claim C4 counterexample: on the end-to-end input with the backend
unreachable the gateway returns the fallback payload, and its
`recommendations` text does not mention SMB (only `industry` is
interpolated into that template). -/
theorem c4_counterexample :
    (ConsultRoute.POST (some endToEndRequest) .netError).body =
      .payload (ConsultRoute.mockResponse (.str "SaaS") (.str "SMB")) ∧
    mentions (ConsultRoute.mockResponse (.str "SaaS") (.str "SMB")).recommendations "SMB"
      = false := by
  refine ⟨rfl, ?_⟩
  decide

/-- Claim C4 (amended): on the end-to-end input with the backend
unreachable, `recommendations` mentions SaaS (but not SMB, see the
counterexample); both SaaS and SMB are interpolated into the
`cost_savings` slot instead; and `key_metrics` is the fixed ordered list of
seven strings, hence non-empty. -/
theorem c4_end_to_end_scenario :
    mentions (ConsultRoute.mockResponse (.str "SaaS") (.str "SMB")).recommendations "SaaS"
      = true ∧
    mentions (ConsultRoute.mockCostSavings (.str "SaaS") (.str "SMB")) "SaaS" = true ∧
    mentions (ConsultRoute.mockCostSavings (.str "SaaS") (.str "SMB")) "SMB" = true ∧
    (ConsultRoute.mockResponse (.str "SaaS") (.str "SMB")).businessImpact.key_metrics =
      some ConsultRoute.mockKeyMetrics ∧
    ConsultRoute.mockKeyMetrics.length = 7 := by
  refine ⟨?_, ?_, ?_, rfl, rfl⟩ <;> decide

/-- Claim C5: whenever the delegate call fails, the gateway's result is
exactly the deterministic fallback template of `industry` and
`companySize`, so any two failing runs that agree on those two fields
produce identical results, whatever the failure mode. -/
theorem c5_fallback_deterministic
    (r1 r2 : ConsultationRequest) (f1 f2 : ConsultRoute.BackendOutcome)
    (h1 : f1.failing = true) (h2 : f2.failing = true)
    (hi : r1.industry = r2.industry) (hc : r1.companySize = r2.companySize) :
    ConsultRoute.POST (some r1) f1 =
      { status := 200
        body := .payload (ConsultRoute.mockResponse r1.industry r1.companySize)
        backendCalls := 1 } ∧
    ConsultRoute.POST (some r1) f1 = ConsultRoute.POST (some r2) f2 := by
  cases f1 <;> cases f2 <;>
    simp_all [ConsultRoute.BackendOutcome.failing, ConsultRoute.POST]

/-- Claim C5 witness: the determinism theorem applied to two concrete
failing runs that agree on `industry` and `companySize` but differ in
`problem` and in failure mode. -/
theorem c5_fallback_deterministic_witness :
    ConsultRoute.POST (some endToEndRequest) .netError =
      { status := 200
        body := .payload (ConsultRoute.mockResponse (.str "SaaS") (.str "SMB"))
        backendCalls := 1 } ∧
    ConsultRoute.POST (some endToEndRequest) .netError =
      ConsultRoute.POST (some { endToEndRequest with problem := .str "cut churn" })
        (.badStatus "Bad Gateway") :=
  c5_fallback_deterministic endToEndRequest
    { endToEndRequest with problem := .str "cut churn" }
    .netError (.badStatus "Bad Gateway") rfl rfl rfl rfl

/-- Claim C6: for every request body that parses, the delegate call is
attempted (exactly once), the status is 200 on every outcome — so the
caller cannot distinguish a live response from a fallback by status — and
every failing outcome (thrown error, non-OK status, unparsable body) yields
the fallback payload while a successful delegate response is passed
through. -/
theorem c6_delegate_first_failures_masked
    (req : ConsultationRequest) (backend : ConsultRoute.BackendOutcome) :
    (ConsultRoute.POST (some req) backend).backendCalls = 1 ∧
    (ConsultRoute.POST (some req) backend).status = 200 ∧
    (ConsultRoute.POST (some req) backend).body =
      (match backend with
       | .success data => ConsultRoute.ConsultBody.payload data
       | _ => .payload (ConsultRoute.mockResponse req.industry req.companySize)) := by
  cases backend <;> exact ⟨rfl, rfl, rfl⟩

/-- Claim C7: `handleSubmit` hands the full payload to the renderer state on
a 2xx outcome (with the error banner cleared), and on a network error or a
non-2xx response it sets the generic error message while the result state
stays empty; in all cases the busy flag ends cleared. -/
theorem c7_transport_success_or_empty
    (s : Form.UIState) (data : ConsultationResponse) :
    Form.handleSubmit s (.success data) =
      { loading := false, result := some data, error := "" } ∧
    Form.handleSubmit s .netError =
      { loading := false, result := none, error := Form.submitErrorMessage } ∧
    Form.handleSubmit s .notOk =
      { loading := false, result := none, error := Form.submitErrorMessage } :=
  ⟨rfl, rfl, rfl⟩

/-- Claim C8: on every path of every route handler the external service is
called at most once — the consult route issues at most one backend fetch,
signup and login at most one Supabase call, and notify none at all. -/
theorem c8_no_retries
    (cb : Option ConsultationRequest) (backend : ConsultRoute.BackendOutcome)
    (sb : Option SignupRoute.SignupRequest) (su : SignupRoute.SignUpOutcome)
    (lb : Option LoginRoute.LoginRequest) (si : LoginRoute.SignInOutcome)
    (nb : Option NotifyRoute.NotifyRequest) :
    (ConsultRoute.POST cb backend).backendCalls ≤ 1 ∧
    (SignupRoute.POST sb su).externalCalls ≤ 1 ∧
    (LoginRoute.POST lb si).externalCalls ≤ 1 ∧
    (NotifyRoute.POST nb).externalCalls = 0 := by
  refine ⟨?_, ?_, ?_, ?_⟩
  · cases cb with
    | none => simp [ConsultRoute.POST]
    | some req => cases backend <;> simp [ConsultRoute.POST]
  · cases sb with
    | none => simp [SignupRoute.POST]
    | some req =>
      cases su <;> simp only [SignupRoute.POST] <;> split <;> simp
  · cases lb with
    | none => simp [LoginRoute.POST]
    | some req =>
      cases si <;> simp only [LoginRoute.POST] <;> split <;> simp
  · cases nb with
    | none => simp [NotifyRoute.POST]
    | some req =>
      simp only [NotifyRoute.POST]
      split
      · split <;> simp
      · simp

/-- Claim C9: the fallback response is a function of `industry` and
`companySize` alone — two failing runs agreeing on those two fields but with
arbitrary different `problem` and `email` values (and arbitrary failure
modes) produce identical gateway results. -/
theorem c9_fallback_ignores_problem_and_email
    (ind cs p1 p2 e1 e2 : JsVal) (f1 f2 : ConsultRoute.BackendOutcome)
    (h1 : f1.failing = true) (h2 : f2.failing = true) :
    ConsultRoute.POST
        (some { problem := p1, industry := ind, companySize := cs, email := e1 }) f1 =
      ConsultRoute.POST
        (some { problem := p2, industry := ind, companySize := cs, email := e2 }) f2 := by
  cases f1 <;> cases f2 <;>
    simp_all [ConsultRoute.BackendOutcome.failing, ConsultRoute.POST]

/-- Claim C9 witness: the noninterference theorem applied to two concrete
failing runs differing in `problem`, `email` and failure mode. -/
theorem c9_fallback_ignores_problem_and_email_witness :
    ConsultRoute.POST
        (some { problem := .str "reduce support cost", industry := .str "SaaS",
                companySize := .str "SMB", email := .str "a@b.com" })
        .netError =
      ConsultRoute.POST
        (some { problem := .undef, industry := .str "SaaS",
                companySize := .str "SMB", email := .str "x@y.org" })
        .invalidJson :=
  c9_fallback_ignores_problem_and_email (.str "SaaS") (.str "SMB")
    (.str "reduce support cost") .undef (.str "a@b.com") (.str "x@y.org")
    .netError .invalidJson rfl rfl

/-- Claim C10 counterexample: a body whose `formData` and `type` are both
present and truthy, but whose `type` is a number, is answered with 500 (the
logging call `type.toUpperCase()` throws), not with the claimed 200. -/
theorem c10_counterexample :
    JsVal.truthy (.obj [("email", "a@b.com")]) = true ∧
    JsVal.truthy (.number 1) = true ∧
    (NotifyRoute.POST
        (some { formData := .obj [("email", "a@b.com")], type := .number 1 })).status
      = 500 := by
  decide

/-- Claim C10 (amended): the notify route checks only truthiness of
`formData` and `type` — it returns 400 exactly when either is falsy or
missing, and returns 200 with the fixed success body exactly when
`formData` is truthy and `type` is a truthy string (strings outside the set
of signup, consultation and contact included); a truthy non-string `type`
instead makes the logging call throw, producing a 500. -/
theorem c10_notify_truthiness_only (req : NotifyRoute.NotifyRequest) :
    ((NotifyRoute.POST (some req)).status = 400 ↔
      (req.formData.truthy = false ∨ req.type.truthy = false)) ∧
    ((NotifyRoute.POST (some req)).status = 200 ↔
      (req.formData.truthy = true ∧ req.type.isString = true ∧ req.type.truthy = true)) ∧
    (NotifyRoute.POST (some req) =
        { status := 200, body := .notifySuccess "Submission received", externalCalls := 0 } ↔
      (NotifyRoute.POST (some req)).status = 200) := by
  obtain ⟨fd, ty⟩ := req
  simp only [NotifyRoute.POST]
  by_cases hf : fd.truthy = true
  · by_cases ht : ty.truthy = true
    · cases ty <;> simp_all [JsVal.truthy, JsVal.isString]
    · simp_all [JsVal.isString]
  · simp_all [JsVal.isString]

end MachinaWorks
